import Mathlib

/-!
Verification of the core of `react-navplus`: the match-mode resolution
algorithm (`src/utils/matchers.ts`) and the prefetch scheduler
(`src/hooks/usePrefetch.ts`, `src/utils/prefetch.ts`, `src/hooks/useIsActive.ts`).

The embedding is shallow: strings are Lean `String`s, a compiled regular
expression is abstracted as its match predicate `String → Bool`, JS
`undefined`/optional values are `Option`, timers are modelled as a list of
armed timer identifiers, and DOM / router side effects are recorded in an
explicit effect log.
-/

namespace NavPlus

/-- JS `String.prototype.includes`: `t` occurs in `s` as a contiguous substring. -/
def jsIncludes (s t : String) : Bool :=
  decide (t.data <:+: s.data)

/-- JS `String.prototype.startsWith`: `t` is a prefix of `s`. -/
def jsStartsWith (s t : String) : Bool :=
  decide (t.data <+: s.data)

/-- A compiled match pattern, abstracted as the predicate `RegExp.test`. -/
def MatchPattern : Type := String → Bool

/-- The type of one matcher function in the registry:
`(pathname, url, pattern?) → boolean`. -/
def Matcher : Type := String → String → Option MatchPattern → Bool

/-- The matcher registry of `src/utils/matchers.ts` (`matchers`), a map from
the match-mode key to its predicate.  The JS `Map` is embedded as an
association list with string keys, so that lookup of arbitrary
(including unrecognized) mode strings is expressible. -/
def matchers : List (String × Matcher) :=
  [ ("exact", fun pathname url _ => pathname == url)
  , ("startsWith", fun pathname url _ => jsStartsWith pathname url)
  , ("includes", fun pathname url _ => jsIncludes pathname url)
  , ("pattern", fun pathname _ pat =>
      match pat with
      | some p => p pathname
      | none => false) ]

/-- `isActive` of `src/utils/matchers.ts`:
look up `matchMode` in the registry, fall back to the `includes` entry when
absent, then apply the resulting matcher. -/
def isActive (pathname url : String) (matchMode : String)
    (matchPattern : Option MatchPattern) : Bool :=
  match (matchers.lookup matchMode).orElse (fun _ => matchers.lookup "includes") with
  | some f => f pathname url matchPattern
  | none => false

/-- `isActiveWithCustomFn` of `src/utils/matchers.ts`: delegate directly to
the caller-supplied predicate. -/
def isActiveWithCustomFn (pathname url : String)
    (isActiveFunc : String → String → Bool) : Bool :=
  isActiveFunc pathname url

/-- `isActiveWithCustomFn` where the caller-supplied predicate may throw,
modelled in the exception monad.  The source has no try/catch here. -/
def isActiveWithCustomFnE (pathname url : String)
    (isActiveFunc : String → String → Except Unit Bool) : Except Unit Bool :=
  isActiveFunc pathname url

/-- `cleanUrl` of `src/utils/matchers.ts`. -/
def cleanUrl (url : String) : String :=
  if url = "" then "/"
  else if jsStartsWith url "/" then url else "/" ++ url

/-- Reference definition of the active predicate, written from the claim:
per-mode behavior with the unrecognized-mode fallback to `includes`. -/
def isActiveRef (pathname url : String) (matchMode : String)
    (matchPattern : Option MatchPattern) : Bool :=
  if matchMode = "exact" then pathname == url
  else if matchMode = "startsWith" then jsStartsWith pathname url
  else if matchMode = "includes" then jsIncludes pathname url
  else if matchMode = "pattern" then
    match matchPattern with
    | some p => p pathname
    | none => false
  else isActive pathname url "includes" matchPattern

end NavPlus

namespace NavPlus

/-- `PrefetchOptions` of `src/types.ts`: every field is optional.  The custom
prefetch callback is abstracted over a type `κ`; only its presence matters
to the normalization logic. -/
structure PrefetchOptions (κ : Type) where
  enabled : Option Bool
  delay : Option Nat
  routerType : Option String
  customPrefetch : Option κ
deriving DecidableEq

/-- `defaultPrefetchOptions` of `src/utils/prefetch.ts`. -/
def defaultPrefetchOptions {κ : Type} : PrefetchOptions κ :=
  { enabled := some true
  , delay := some 200
  , routerType := some "react-router"
  , customPrefetch := none }

/-- The `prefetch` prop accepted by the scheduler:
`boolean | PrefetchOptions | undefined`. -/
inductive PrefetchProp (κ : Type) where
  | bool (b : Bool)
  | opts (o : PrefetchOptions κ)
  | undef
deriving DecidableEq

/-- JS object spread `{...d, ...o}` on two `PrefetchOptions` records: a field
present in `o` wins, an absent field falls back to `d`. -/
def mergeOpts {κ : Type} (d o : PrefetchOptions κ) : PrefetchOptions κ :=
  { enabled := (o.enabled).orElse (fun _ => d.enabled)
  , delay := (o.delay).orElse (fun _ => d.delay)
  , routerType := (o.routerType).orElse (fun _ => d.routerType)
  , customPrefetch := (o.customPrefetch).orElse (fun _ => d.customPrefetch) }

/-- `normalizePrefetchOptions` of `src/utils/prefetch.ts`: a boolean becomes
`{...defaults, enabled: b}`; otherwise the result is
`{...defaults, ...prefetch}` (spreading `undefined` adds nothing). -/
def normalizePrefetchOptions {κ : Type} : PrefetchProp κ → PrefetchOptions κ
  | .bool b => { defaultPrefetchOptions with enabled := some b }
  | .opts o => mergeOpts defaultPrefetchOptions o
  | .undef => defaultPrefetchOptions

/-- Reference normalization, written from the claim: the full record over the
defaults `{enabled: true, delay: 200, routerType: "react-router"}`, with a
boolean overriding only `enabled`, an object shallow-merged over the
defaults with absent fields keeping their default values, and `undefined`
yielding the defaults verbatim. -/
def normalizeRef {κ : Type} : PrefetchProp κ → PrefetchOptions κ
  | .bool b =>
      { enabled := some b, delay := some 200
      , routerType := some "react-router", customPrefetch := none }
  | .opts o =>
      { enabled := some (o.enabled.getD true)
      , delay := some (o.delay.getD 200)
      , routerType := some (o.routerType.getD "react-router")
      , customPrefetch := o.customPrefetch }
  | .undef =>
      { enabled := some true, delay := some 200
      , routerType := some "react-router", customPrefetch := none }

/-- A DOM resource hint registered with the document: the constructor encodes
the `rel` attribute, the fields the `href` and (for prefetch) `as`
attributes. -/
inductive Hint where
  | prefetchLink (href : String) (asAttr : String)
  | preconnect (href : String)
deriving DecidableEq

/-- The observable side effects of one `executePrefetch` call: registered
hints, invocations of the custom callback, of `routerContext.router.prefetch`,
of the ambient `window.TanStackRouter.router.prefetch`, and console
warnings. -/
structure Effects where
  hints : List Hint
  customCalls : List String
  routerCalls : List String
  globalCalls : List String
  warnings : List String
deriving DecidableEq

/-- No side effects. -/
def emptyEffects : Effects :=
  { hints := [], customCalls := [], routerCalls := [], globalCalls := []
  , warnings := [] }

/-- The ambient environment `executePrefetch` runs in: which prefetch
capabilities exist (`routerContext.router.prefetch`,
`window.TanStackRouter.router.prefetch`), whether invoking each of them
throws, whether DOM hint creation throws, whether the custom callback
throws, and the origin resolution `new URL(url, window.location.origin).origin`. -/
structure DomEnv where
  originOf : String → String
  routerHasPrefetch : Bool
  routerPrefetchThrows : Bool
  globalHasPrefetch : Bool
  globalPrefetchThrows : Bool
  hintThrows : Bool
  customThrows : Bool

/-- The `try { switch (routerType) ... } catch` region of `executePrefetch`:
returns the success flag together with the effects.  A throw inside this
region is caught and converted to a `false` return, so the region itself is
a total function. -/
def executePrefetchTry (env : DomEnv) (url : String) (routerType : String) :
    Bool × Effects :=
  if routerType = "react-router" then
    if env.hintThrows then (false, emptyEffects)
    else
      (true, { emptyEffects with
        hints := [Hint.prefetchLink url "document"
                 , Hint.preconnect (env.originOf url)] })
  else if routerType = "tanstack-router" then
    if env.routerHasPrefetch then
      if env.routerPrefetchThrows then (false, emptyEffects)
      else (true, { emptyEffects with routerCalls := [url] })
    else if env.globalHasPrefetch then
      if env.globalPrefetchThrows then (false, emptyEffects)
      else (true, { emptyEffects with globalCalls := [url] })
    else
      (false, { emptyEffects with
        warnings := ["TanStack Router prefetch: router instance not found"] })
  else if routerType = "wouter" then
    if env.hintThrows then (false, emptyEffects)
    else (true, { emptyEffects with hints := [Hint.prefetchLink url "document"] })
  else
    if env.hintThrows then (false, emptyEffects)
    else (true, { emptyEffects with hints := [Hint.prefetchLink url "document"] })

/-- `executePrefetch` of `src/utils/prefetch.ts`.  `hasCustom` is the
presence of the `customPrefetch` argument.  The custom callback runs before
(outside) the try/catch region, so an exception it raises propagates, which
the exception monad records as `.error`. -/
def executePrefetch (env : DomEnv) (url : String) (routerType : String)
    (isExternal : Bool) (hasCustom : Bool) : Except Unit (Bool × Effects) :=
  if isExternal then Except.ok (false, emptyEffects)
  else if routerType = "custom" ∧ hasCustom = true then
    if env.customThrows then Except.error ()
    else Except.ok (true, { emptyEffects with customCalls := [url] })
  else Except.ok (executePrefetchTry env url routerType)

/-- Per-link prefetch session state of `usePrefetch`.  `pending` is the list
of armed, not-yet-fired, not-yet-cleared timers (in arming order), `nextId`
a fresh timer handle supply, `ref` the value of `prefetchTimeoutRef.current`,
`isPrefetched` the one-shot completion flag, and `dispatchCount` counts the
`executePrefetch` invocations made by fired timers. -/
structure SessionState where
  pending : List Nat
  nextId : Nat
  ref : Option Nat
  isPrefetched : Bool
  dispatchCount : Nat
deriving DecidableEq

/-- Session state at mount. -/
def initialSession : SessionState :=
  { pending := [], nextId := 0, ref := none, isPrefetched := false
  , dispatchCount := 0 }

/-- `clearTimeout(prefetchTimeoutRef.current)` guarded by the ref check:
removes the referenced timer from the pending set (a no-op if it already
fired or was cleared); the ref itself is not nulled by the source. -/
def clearTimer (s : SessionState) : SessionState :=
  match s.ref with
  | some id => { s with pending := s.pending.erase id }
  | none => s

/-- `prefetchTimeoutRef.current = setTimeout(...)`: arms a fresh timer and
stores its handle in the ref. -/
def armTimer (s : SessionState) : SessionState :=
  { s with
      pending := s.pending ++ [s.nextId],
      ref := some s.nextId,
      nextId := s.nextId + 1 }

/-- JS truthiness of an optional boolean field. -/
def jsTruthy (o : Option Bool) : Bool := o.getD false

/-- `handlePrefetch` of `src/hooks/usePrefetch.ts`: guard, clear any existing
timeout, arm a new one. -/
def handlePrefetch {κ : Type} (opts : PrefetchOptions κ)
    (isExternal redirection disabled : Bool) (s : SessionState) : SessionState :=
  if !jsTruthy opts.enabled || isExternal || !redirection || disabled
      || s.isPrefetched then s
  else armTimer (clearTimer s)

/-- `cancelPrefetch` of `src/hooks/usePrefetch.ts`: clear the pending
timeout if any. -/
def cancelPrefetch (s : SessionState) : SessionState := clearTimer s

/-- The `useEffect` unmount cleanup of `src/hooks/usePrefetch.ts`; its body
is identical to `cancelPrefetch`. -/
def unmountCleanup (s : SessionState) : SessionState := clearTimer s

/-- A timer firing: only a still-pending timer can fire; it leaves the
pending set, `executePrefetch` runs (counted by `dispatchCount`), and on
success `setIsPrefetched(true)` records completion. -/
def fireTimer (id : Nat) (success : Bool) (s : SessionState) : SessionState :=
  if id ∈ s.pending then
    let s1 := { s with
                  pending := s.pending.erase id,
                  dispatchCount := s.dispatchCount + 1 }
    if success then { s1 with isPrefetched := true } else s1
  else s

/-- A sequence of timer-firing events applied in order. -/
def applyFires : List (Nat × Bool) → SessionState → SessionState
  | [], s => s
  | (id, b) :: evs, s => applyFires evs (fireTimer id b s)

/-- Reachable-state invariant of a session: at most one pending timer, the
ref points at it when one exists, and all live handles are below the fresh
supply. -/
def SessionInv (s : SessionState) : Prop :=
  (s.pending = [] ∨ ∃ id, s.pending = [id] ∧ s.ref = some id) ∧
  (∀ id, s.ref = some id → id < s.nextId) ∧
  (∀ id, id ∈ s.pending → id < s.nextId)

/-- The guard of `handlePrefetch` passes and a new timer will be armed. -/
def startProceeds {κ : Type} (opts : PrefetchOptions κ)
    (isExternal redirection disabled : Bool) (s : SessionState) : Prop :=
  jsTruthy opts.enabled = true ∧ isExternal = false ∧ redirection = true ∧
    disabled = false ∧ s.isPrefetched = false

/-- `useIsActive` of `src/hooks/useIsActive.ts`.  The location is its
optional `pathname`; `!location?.pathname` is falsy for a missing location
and for an empty pathname, and `customActiveUrl || to` falls back to `to`
when `customActiveUrl` is absent or empty. -/
def useIsActive (toPath : String) (location : Option String) (matchMode : String)
    (matchPattern : Option MatchPattern) (customActiveUrl : Option String)
    (isActiveFunc : Option (String → String → Bool)) : Bool :=
  match location with
  | none => false
  | some pathname =>
    if pathname = "" then false
    else
      let urlToMatch :=
        match customActiveUrl with
        | some u => if u = "" then toPath else u
        | none => toPath
      match isActiveFunc with
      | some f => isActiveWithCustomFn pathname urlToMatch f
      | none => isActive pathname urlToMatch matchMode matchPattern

/-- The effective target path per the amended claim: `customActiveUrl` when
supplied and non-empty, else the `to` prop. -/
def effectiveTarget (toPath : String) (customActiveUrl : Option String) : String :=
  match customActiveUrl with
  | some u => if u = "" then toPath else u
  | none => toPath

end NavPlus

namespace NavPlus

/-- C1: `isActive` agrees with the per-mode reference definition — string
equality for `exact`, prefix for `startsWith`, substring for `includes`,
`pattern.test` (or `false` if the pattern is absent) for `pattern`, and for
every other mode value it coincides with the `includes` behavior.  The
function is total and `Bool`-valued, so it always returns a boolean and
never raises. -/
theorem isActive_matches_reference (pathname url : String) (matchMode : String)
    (matchPattern : Option MatchPattern) :
    isActive pathname url matchMode matchPattern
      = isActiveRef pathname url matchMode matchPattern := by
  unfold isActive isActiveRef matchers
  by_cases h1 : matchMode = "exact"
  · simp [h1, List.lookup]
  · by_cases h2 : matchMode = "startsWith"
    · simp [h2, List.lookup]
    · by_cases h3 : matchMode = "includes"
      · simp [h3, List.lookup]
      · by_cases h4 : matchMode = "pattern"
        · simp [h4, List.lookup]
        · have hb1 : (matchMode == "exact") = false := by simp [h1]
          have hb2 : (matchMode == "startsWith") = false := by simp [h2]
          have hb3 : (matchMode == "includes") = false := by simp [h3]
          have hb4 : (matchMode == "pattern") = false := by simp [h4]
          simp [hb1, hb2, hb3, hb4, h1, h2, h3, h4, List.lookup, isActive,
            matchers, Option.orElse]

/-- C7: `normalizePrefetchOptions` maps every input to the full record over
the defaults `{enabled: true, delay: 200, routerType: "react-router"}`: a
boolean overrides only `enabled`, an object is shallow-merged over the
defaults with absent fields keeping their defaults, and `undefined` yields
the defaults verbatim. -/
theorem normalizePrefetchOptions_matches_reference {κ : Type} (p : PrefetchProp κ) :
    normalizePrefetchOptions p = normalizeRef p := by
  cases p with
  | bool b => rfl
  | undef => rfl
  | opts o =>
      obtain ⟨e, d, r, c⟩ := o
      cases e <;> cases d <;> cases r <;> cases c <;> rfl

/-- C4: with `isExternal = true`, `executePrefetch` returns `false`
immediately for every strategy and environment, registering no hints and
invoking no callback — the external check takes priority over everything
else, including the custom strategy. -/
theorem executePrefetch_external_noop (env : DomEnv) (url routerType : String)
    (hasCustom : Bool) :
    executePrefetch env url routerType true hasCustom
      = Except.ok (false, emptyEffects) := rfl

/-- C5: the `react-router` (default-router) strategy on a non-external
target registers exactly two hints — a `rel="prefetch"` link for the target
with `as="document"` and a `rel="preconnect"` link for the target origin —
and returns `true`. -/
theorem executePrefetch_reactRouter_twoHints (env : DomEnv) (url : String)
    (hasCustom : Bool) (h : env.hintThrows = false) :
    executePrefetch env url "react-router" false hasCustom
      = Except.ok (true, { emptyEffects with
          hints := [Hint.prefetchLink url "document"
                   , Hint.preconnect (env.originOf url)] }) := by
  simp [executePrefetch, executePrefetchTry, h]

/-- An environment with every capability absent, nothing throwing, and a
fixed origin resolution. -/
def plainEnv : DomEnv :=
  { originOf := fun _ => "https://app.example"
  , routerHasPrefetch := false, routerPrefetchThrows := false
  , globalHasPrefetch := false, globalPrefetchThrows := false
  , hintThrows := false, customThrows := false }

/-- An environment where `routerContext.router.prefetch` exists. -/
def routerEnv : DomEnv := { plainEnv with routerHasPrefetch := true }

/-- An environment where only `window.TanStackRouter.router.prefetch`
exists. -/
def globalEnv : DomEnv := { plainEnv with globalHasPrefetch := true }

/-- An environment where every effectful primitive throws. -/
def throwingEnv : DomEnv :=
  { plainEnv with
      routerHasPrefetch := true, routerPrefetchThrows := true
    , globalHasPrefetch := true, globalPrefetchThrows := true
    , hintThrows := true, customThrows := true }

theorem executePrefetch_reactRouter_twoHints_witness :
    executePrefetch plainEnv "/dash" "react-router" false false
      = Except.ok (true, { emptyEffects with
          hints := [Hint.prefetchLink "/dash" "document"
                   , Hint.preconnect "https://app.example"] }) :=
  executePrefetch_reactRouter_twoHints plainEnv "/dash" false rfl

/-- C6: the `tanstack-router` (specialized-router) strategy on a
non-external target uses `routerContext.router.prefetch` when present
(invoking it with the target, registering no hint, returning `true`), else
the ambient `window.TanStackRouter.router.prefetch` with the identical
contract, and with neither capability emits a non-fatal warning and
returns `false`. -/
theorem executePrefetch_tanstack_contract (env : DomEnv) (url : String)
    (hasCustom : Bool) :
    (env.routerHasPrefetch = true → env.routerPrefetchThrows = false →
      executePrefetch env url "tanstack-router" false hasCustom
        = Except.ok (true, { emptyEffects with routerCalls := [url] })) ∧
    (env.routerHasPrefetch = false → env.globalHasPrefetch = true →
      env.globalPrefetchThrows = false →
      executePrefetch env url "tanstack-router" false hasCustom
        = Except.ok (true, { emptyEffects with globalCalls := [url] })) ∧
    (env.routerHasPrefetch = false → env.globalHasPrefetch = false →
      executePrefetch env url "tanstack-router" false hasCustom
        = Except.ok (false, { emptyEffects with
            warnings := ["TanStack Router prefetch: router instance not found"] })) := by
  refine ⟨?_, ?_, ?_⟩
  · intro h1 h2
    simp [executePrefetch, executePrefetchTry, h1, h2]
  · intro h1 h2 h3
    simp [executePrefetch, executePrefetchTry, h1, h2, h3]
  · intro h1 h2
    simp [executePrefetch, executePrefetchTry, h1, h2]

theorem executePrefetch_tanstack_contract_witness :
    (executePrefetch routerEnv "/a" "tanstack-router" false false
      = Except.ok (true, { emptyEffects with routerCalls := ["/a"] })) ∧
    (executePrefetch globalEnv "/a" "tanstack-router" false false
      = Except.ok (true, { emptyEffects with globalCalls := ["/a"] })) ∧
    (executePrefetch plainEnv "/a" "tanstack-router" false false
      = Except.ok (false, { emptyEffects with
          warnings := ["TanStack Router prefetch: router instance not found"] })) :=
  ⟨(executePrefetch_tanstack_contract routerEnv "/a" false).1 rfl rfl
  , (executePrefetch_tanstack_contract globalEnv "/a" false).2.1 rfl rfl rfl
  , (executePrefetch_tanstack_contract plainEnv "/a" false).2.2 rfl rfl⟩

/-- C10: strategy `"custom"` with no custom callback on a non-external
target falls through the custom-branch guard into the unknown-strategy
fallback of the switch: it registers a single `rel="prefetch"` document
hint for the target and returns `true`. -/
theorem executePrefetch_custom_without_callback (env : DomEnv) (url : String)
    (h : env.hintThrows = false) :
    executePrefetch env url "custom" false false
      = Except.ok (true, { emptyEffects with
          hints := [Hint.prefetchLink url "document"] }) := by
  simp [executePrefetch, executePrefetchTry, h]

theorem executePrefetch_custom_without_callback_witness :
    executePrefetch plainEnv "/p" "custom" false false
      = Except.ok (true, { emptyEffects with
          hints := [Hint.prefetchLink "/p" "document"] }) :=
  executePrefetch_custom_without_callback plainEnv "/p" rfl

/-- C9: exceptions from caller-supplied functions propagate — the custom
active-function result (including an error) is returned verbatim by
`isActiveWithCustomFnE`, and a throwing custom prefetch callback makes
`executePrefetch` propagate the exception — whereas a throw during hint
creation or router-capability invocation in the other strategy branches is
caught and converted into a non-propagating `false` return; outside the
custom branch `executePrefetch` never returns an exception. -/
theorem core_exception_policy (pathname url target : String)
    (f : String → String → Except Unit Bool) (env : DomEnv)
    (routerType : String) (hasCustom : Bool) :
    (isActiveWithCustomFnE pathname url f = f pathname url) ∧
    (env.customThrows = true →
      executePrefetch env target "custom" false true = Except.error ()) ∧
    (env.hintThrows = true →
      executePrefetch env target "react-router" false hasCustom
        = Except.ok (false, emptyEffects)) ∧
    (env.routerHasPrefetch = true → env.routerPrefetchThrows = true →
      executePrefetch env target "tanstack-router" false hasCustom
        = Except.ok (false, emptyEffects)) ∧
    (¬(routerType = "custom" ∧ hasCustom = true) →
      ∃ r, executePrefetch env target routerType false hasCustom
        = Except.ok r) := by
  refine ⟨rfl, ?_, ?_, ?_, ?_⟩
  · intro h
    simp [executePrefetch, h]
  · intro h
    simp [executePrefetch, executePrefetchTry, h]
  · intro h1 h2
    simp [executePrefetch, executePrefetchTry, h1, h2]
  · intro h
    refine ⟨executePrefetchTry env target routerType, ?_⟩
    simp [executePrefetch, h]

theorem core_exception_policy_witness :
    (isActiveWithCustomFnE "/a" "/b" (fun _ _ => Except.error ())
      = Except.error ()) ∧
    (executePrefetch throwingEnv "/t" "custom" false true = Except.error ()) ∧
    (executePrefetch throwingEnv "/t" "react-router" false false
      = Except.ok (false, emptyEffects)) ∧
    (executePrefetch throwingEnv "/t" "tanstack-router" false false
      = Except.ok (false, emptyEffects)) ∧
    (∃ r, executePrefetch throwingEnv "/t" "wouter" false false
      = Except.ok r) :=
  ⟨(core_exception_policy "/a" "/b" "/t" (fun _ _ => Except.error ())
      throwingEnv "wouter" false).1
  , (core_exception_policy "/a" "/b" "/t" (fun _ _ => Except.error ())
      throwingEnv "wouter" false).2.1 rfl
  , (core_exception_policy "/a" "/b" "/t" (fun _ _ => Except.error ())
      throwingEnv "wouter" false).2.2.1 rfl
  , (core_exception_policy "/a" "/b" "/t" (fun _ _ => Except.error ())
      throwingEnv "wouter" false).2.2.2.1 rfl rfl
  , (core_exception_policy "/a" "/b" "/t" (fun _ _ => Except.error ())
      throwingEnv "wouter" false).2.2.2.2 (by decide)⟩

/-- If any disjunct of the guard holds, `handlePrefetch` leaves the session
state untouched. -/
lemma handlePrefetch_eq_of_guard {κ : Type} (opts : PrefetchOptions κ)
    (isExternal redirection disabled : Bool) (s : SessionState)
    (h : jsTruthy opts.enabled = false ∨ isExternal = true ∨
      redirection = false ∨ disabled = true ∨ s.isPrefetched = true) :
    handlePrefetch opts isExternal redirection disabled s = s := by
  have hc : (!jsTruthy opts.enabled || isExternal || !redirection || disabled
      || s.isPrefetched) = true := by
    rcases h with h | h | h | h | h <;> simp [h]
  simp [handlePrefetch, hc]

/-- C2: `handlePrefetch` is a no-op — no timer armed, state unchanged —
whenever prefetching is disabled, the target is external, redirection is
off, the link is disabled, or the session already dispatched; and the fire
of a pending timer with a successful dispatch marks the session prefetched,
after which every subsequent start call in the same session leaves the
state (timers included) unchanged. -/
theorem handlePrefetch_guard_and_idempotence {κ : Type}
    (opts : PrefetchOptions κ) (isExternal redirection disabled : Bool)
    (s : SessionState) :
    ((jsTruthy opts.enabled = false ∨ isExternal = true ∨
        redirection = false ∨ disabled = true ∨ s.isPrefetched = true) →
      handlePrefetch opts isExternal redirection disabled s = s) ∧
    (∀ id, id ∈ s.pending → (fireTimer id true s).isPrefetched = true) ∧
    (∀ (opts2 : PrefetchOptions κ) (e2 r2 d2 : Bool) (id : Nat),
      id ∈ s.pending →
      handlePrefetch opts2 e2 r2 d2 (fireTimer id true s)
        = fireTimer id true s) := by
  have hfire : ∀ id, id ∈ s.pending → (fireTimer id true s).isPrefetched = true := by
    intro id hid
    simp [fireTimer, hid]
  refine ⟨handlePrefetch_eq_of_guard opts isExternal redirection disabled s
    , hfire, ?_⟩
  intro opts2 e2 r2 d2 id hid
  exact handlePrefetch_eq_of_guard opts2 e2 r2 d2 (fireTimer id true s)
    (Or.inr (Or.inr (Or.inr (Or.inr (hfire id hid)))))

theorem handlePrefetch_guard_and_idempotence_witness :
    (handlePrefetch (defaultPrefetchOptions : PrefetchOptions Nat)
        false true false
        { pending := [5], nextId := 6, ref := some 5, isPrefetched := true
        , dispatchCount := 0 }
      = { pending := [5], nextId := 6, ref := some 5, isPrefetched := true
        , dispatchCount := 0 }) ∧
    ((fireTimer 5 true
        { pending := [5], nextId := 6, ref := some 5, isPrefetched := true
        , dispatchCount := 0 }).isPrefetched = true) ∧
    (handlePrefetch (defaultPrefetchOptions : PrefetchOptions Nat)
        false true false
        (fireTimer 5 true
          { pending := [5], nextId := 6, ref := some 5, isPrefetched := true
          , dispatchCount := 0 })
      = fireTimer 5 true
          { pending := [5], nextId := 6, ref := some 5, isPrefetched := true
          , dispatchCount := 0 }) :=
  ⟨(handlePrefetch_guard_and_idempotence defaultPrefetchOptions false true false
      { pending := [5], nextId := 6, ref := some 5, isPrefetched := true
      , dispatchCount := 0 }).1
    (Or.inr (Or.inr (Or.inr (Or.inr rfl))))
  , (handlePrefetch_guard_and_idempotence
      (defaultPrefetchOptions : PrefetchOptions Nat) false true false
      { pending := [5], nextId := 6, ref := some 5, isPrefetched := true
      , dispatchCount := 0 }).2.1 5 (by decide)
  , (handlePrefetch_guard_and_idempotence
      (defaultPrefetchOptions : PrefetchOptions Nat) false true false
      { pending := [5], nextId := 6, ref := some 5, isPrefetched := true
      , dispatchCount := 0 }).2.2 defaultPrefetchOptions false true false 5
      (by decide)⟩

lemma clearTimer_ref (s : SessionState) : (clearTimer s).ref = s.ref := by
  cases hs : s.ref <;> simp [clearTimer, hs]

lemma clearTimer_nextId (s : SessionState) :
    (clearTimer s).nextId = s.nextId := by
  cases hs : s.ref <;> simp [clearTimer, hs]

lemma clearTimer_isPrefetched (s : SessionState) :
    (clearTimer s).isPrefetched = s.isPrefetched := by
  cases hs : s.ref <;> simp [clearTimer, hs]

lemma clearTimer_dispatchCount (s : SessionState) :
    (clearTimer s).dispatchCount = s.dispatchCount := by
  cases hs : s.ref <;> simp [clearTimer, hs]

/-- On any state satisfying the session invariant, clearing the referenced
timer empties the pending set. -/
lemma clearTimer_pending_nil {s : SessionState} (h : SessionInv s) :
    (clearTimer s).pending = [] := by
  rcases h.1 with hp | ⟨j, hp, href⟩
  · cases hs : s.ref <;> simp [clearTimer, hs, hp]
  · simp [clearTimer, href, hp, List.erase_cons_head]

lemma sessionInv_length {s : SessionState} (h : SessionInv s) :
    s.pending.length ≤ 1 := by
  rcases h.1 with hp | ⟨j, hp, _⟩ <;> simp [hp]

lemma sessionInv_armTimer {s : SessionState}
    (_h2 : ∀ id, s.ref = some id → id < s.nextId) (hp : s.pending = []) :
    SessionInv (armTimer s) := by
  refine ⟨Or.inr ⟨s.nextId, ?_, rfl⟩, ?_, ?_⟩
  · simp [armTimer, hp]
  · intro id h
    have : s.nextId = id := by simpa [armTimer] using h
    simp [armTimer]
    omega
  · intro id hid
    have : id = s.nextId := by simpa [armTimer, hp] using hid
    simp [armTimer]
    omega

lemma sessionInv_clearTimer {s : SessionState} (h : SessionInv s) :
    SessionInv (clearTimer s) := by
  refine ⟨Or.inl (clearTimer_pending_nil h), ?_, ?_⟩
  · intro id hid
    rw [clearTimer_ref] at hid
    rw [clearTimer_nextId]
    exact h.2.1 id hid
  · intro id hid
    rw [clearTimer_pending_nil h] at hid
    simp at hid

/-- When the guard passes, `handlePrefetch` is exactly clear-then-arm. -/
lemma handlePrefetch_of_proceeds {κ : Type} {opts : PrefetchOptions κ}
    {isExternal redirection disabled : Bool} {s : SessionState}
    (h : startProceeds opts isExternal redirection disabled s) :
    handlePrefetch opts isExternal redirection disabled s
      = armTimer (clearTimer s) := by
  obtain ⟨h1, h2, h3, h4, h5⟩ := h
  simp [handlePrefetch, h1, h2, h3, h4, h5]

lemma sessionInv_handlePrefetch {κ : Type} (opts : PrefetchOptions κ)
    (isExternal redirection disabled : Bool) {s : SessionState}
    (h : SessionInv s) :
    SessionInv (handlePrefetch opts isExternal redirection disabled s) := by
  unfold handlePrefetch
  split
  · exact h
  · refine sessionInv_armTimer ?_ (clearTimer_pending_nil h)
    intro id hid
    rw [clearTimer_ref] at hid
    rw [clearTimer_nextId]
    exact h.2.1 id hid

lemma fireTimer_of_mem {s : SessionState} {id : Nat} (b : Bool)
    (hid : id ∈ s.pending) :
    fireTimer id b s
      = { s with
            pending := s.pending.erase id,
            dispatchCount := s.dispatchCount + 1,
            isPrefetched := (b || s.isPrefetched) } := by
  cases b <;> simp [fireTimer, hid]

lemma fireTimer_of_not_mem {s : SessionState} {id : Nat} (b : Bool)
    (hid : id ∉ s.pending) : fireTimer id b s = s := by
  simp [fireTimer, hid]

lemma sessionInv_fireTimer {s : SessionState} (h : SessionInv s)
    (id : Nat) (b : Bool) : SessionInv (fireTimer id b s) := by
  by_cases hid : id ∈ s.pending
  · rcases h.1 with hp | ⟨j, hp, href⟩
    · rw [hp] at hid
      simp at hid
    · have hij : id = j := by
        rw [hp] at hid
        simpa using hid
      subst hij
      have hper : s.pending.erase id = [] := by
        rw [hp, List.erase_cons_head]
      rw [fireTimer_of_mem b hid]
      refine ⟨Or.inl hper, ?_, ?_⟩
      · intro k hk
        exact h.2.1 k hk
      · intro k hk
        simp [hper] at hk
  · rw [fireTimer_of_not_mem b hid]
    exact h

lemma fireTimer_count_len (s : SessionState) (id : Nat) (b : Bool) :
    (fireTimer id b s).dispatchCount + (fireTimer id b s).pending.length
      ≤ s.dispatchCount + s.pending.length := by
  by_cases hid : id ∈ s.pending
  · rw [fireTimer_of_mem b hid]
    have hlen := List.length_erase_of_mem hid
    have hpos : 0 < s.pending.length :=
      List.length_pos.mpr (List.ne_nil_of_mem hid)
    simp only [hlen]
    omega
  · rw [fireTimer_of_not_mem b hid]

/-- Every sequence of timer firings performs at most as many dispatches as
there are pending timers. -/
lemma applyFires_count_le :
    ∀ (evs : List (Nat × Bool)) (s : SessionState),
      (applyFires evs s).dispatchCount
        ≤ s.dispatchCount + s.pending.length := by
  intro evs
  induction evs with
  | nil =>
      intro s
      simp [applyFires]
  | cons ev tl ih =>
      intro s
      obtain ⟨id, b⟩ := ev
      have h1 := ih (fireTimer id b s)
      have h2 := fireTimer_count_len s id b
      simp only [applyFires]
      omega

/-- With no pending timer, no sequence of firing events changes anything. -/
lemma applyFires_of_nil :
    ∀ (evs : List (Nat × Bool)) (s : SessionState), s.pending = [] →
      applyFires evs s = s := by
  intro evs
  induction evs with
  | nil =>
      intro s _
      rfl
  | cons ev tl ih =>
      intro s hp
      obtain ⟨id, b⟩ := ev
      have hno : fireTimer id b s = s := by
        refine fireTimer_of_not_mem b ?_
        simp [hp]
      simp only [applyFires, hno]
      exact ih s hp

lemma handlePrefetch_dispatchCount {κ : Type} (opts : PrefetchOptions κ)
    (isExternal redirection disabled : Bool) (s : SessionState) :
    (handlePrefetch opts isExternal redirection disabled s).dispatchCount
      = s.dispatchCount := by
  unfold handlePrefetch
  split
  · rfl
  · show (armTimer (clearTimer s)).dispatchCount = s.dispatchCount
    simp [armTimer, clearTimer_dispatchCount]

/-- The mount-time session state satisfies the invariant. -/
lemma sessionInv_initial : SessionInv initialSession := by
  refine ⟨Or.inl rfl, ?_, ?_⟩ <;> intro id h <;> simp [initialSession] at h

/-- C3: on every invariant-satisfying session state, each operation
preserves the invariant, so at most one timer is ever pending; a start that
proceeds arms exactly the fresh timer and the previously referenced timer
is no longer pending; two starts in quick succession allow at most one
eventual dispatch over any sequence of timer firings; and a cancel (whose
body the unmount cleanup shares) empties the pending set so that zero
dispatches can occur afterwards. -/
theorem prefetch_timer_discipline {κ : Type} (opts : PrefetchOptions κ)
    (isExternal redirection disabled : Bool) (s : SessionState)
    (hInv : SessionInv s) :
    SessionInv (handlePrefetch opts isExternal redirection disabled s) ∧
    SessionInv (cancelPrefetch s) ∧
    (∀ id b, SessionInv (fireTimer id b s)) ∧
    (handlePrefetch opts isExternal redirection disabled s).pending.length ≤ 1 ∧
    (startProceeds opts isExternal redirection disabled s →
      (handlePrefetch opts isExternal redirection disabled s).pending
          = [s.nextId] ∧
      ∀ oldId, s.ref = some oldId →
        oldId ∉ (handlePrefetch opts isExternal redirection disabled s).pending) ∧
    (∀ evs, (applyFires evs
        (handlePrefetch opts isExternal redirection disabled
          (handlePrefetch opts isExternal redirection disabled s))).dispatchCount
      ≤ s.dispatchCount + 1) ∧
    unmountCleanup s = cancelPrefetch s ∧
    (cancelPrefetch s).pending = [] ∧
    (∀ evs, (applyFires evs (cancelPrefetch s)).dispatchCount
      = s.dispatchCount) := by
  have hinv1 := sessionInv_handlePrefetch opts isExternal redirection disabled hInv
  refine ⟨hinv1, sessionInv_clearTimer hInv, fun id b => sessionInv_fireTimer hInv id b
    , sessionInv_length hinv1, ?_, ?_, rfl, clearTimer_pending_nil hInv, ?_⟩
  · intro hsp
    have harm := handlePrefetch_of_proceeds hsp
    constructor
    · rw [harm]
      show (clearTimer s).pending ++ [(clearTimer s).nextId] = [s.nextId]
      rw [clearTimer_pending_nil hInv, clearTimer_nextId]
      rfl
    · intro oldId href
      have hlt := hInv.2.1 oldId href
      rw [harm]
      show oldId ∉ (clearTimer s).pending ++ [(clearTimer s).nextId]
      rw [clearTimer_pending_nil hInv, clearTimer_nextId]
      simp
      omega
  · intro evs
    have hinv2 := sessionInv_handlePrefetch opts isExternal redirection disabled hinv1
    have hlen2 := sessionInv_length hinv2
    have hle := applyFires_count_le evs
      (handlePrefetch opts isExternal redirection disabled
        (handlePrefetch opts isExternal redirection disabled s))
    have hc1 := handlePrefetch_dispatchCount opts isExternal redirection disabled s
    have hc2 := handlePrefetch_dispatchCount opts isExternal redirection disabled
      (handlePrefetch opts isExternal redirection disabled s)
    omega
  · intro evs
    show (applyFires evs (clearTimer s)).dispatchCount = s.dispatchCount
    rw [applyFires_of_nil evs _ (clearTimer_pending_nil hInv)]
    exact clearTimer_dispatchCount s

theorem prefetch_timer_discipline_witness :
    SessionInv initialSession ∧
    ((cancelPrefetch initialSession).pending = []) ∧
    ((handlePrefetch (defaultPrefetchOptions : PrefetchOptions Nat)
        false true false initialSession).pending.length ≤ 1) ∧
    (∀ evs, (applyFires evs (cancelPrefetch initialSession)).dispatchCount
      = initialSession.dispatchCount) :=
  ⟨sessionInv_initial
  , (prefetch_timer_discipline (defaultPrefetchOptions : PrefetchOptions Nat)
      false true false initialSession sessionInv_initial).2.2.2.2.2.2.2.1
  , (prefetch_timer_discipline (defaultPrefetchOptions : PrefetchOptions Nat)
      false true false initialSession sessionInv_initial).2.2.2.1
  , (prefetch_timer_discipline (defaultPrefetchOptions : PrefetchOptions Nat)
      false true false initialSession sessionInv_initial).2.2.2.2.2.2.2.2⟩

/-- C8 counterexample: with `customActiveUrl` supplied as the empty string,
`useIsActive` does not match against the supplied custom URL — the JS
truthiness fallback `customActiveUrl || to` discards an empty string and
matches against the `to` prop instead, so the result differs from
`isActive` applied to the supplied custom URL. -/
theorem useIsActive_emptyCustomUrl_counterexample :
    ¬ (useIsActive "/xyz" (some "/a") "includes" none (some "") none
        = isActive "/a" "" "includes" none) := by
  decide

/-- C8 (amended): the composite active-state decision returns `false` and
never throws when no current-location pathname is available (missing
location or empty pathname); a caller-supplied custom predicate decides the
result unconditionally, overriding mode-based matching; otherwise
`isActive` is invoked with the effective target path, which is
`customActiveUrl` if supplied and non-empty, and the `to` prop otherwise. -/
theorem useIsActive_composite_spec (toPath : String) (mode : String)
    (pat : Option MatchPattern) (cau : Option String)
    (fn : Option (String → String → Bool)) :
    (useIsActive toPath none mode pat cau fn = false) ∧
    (useIsActive toPath (some "") mode pat cau fn = false) ∧
    (∀ p f, p ≠ "" → fn = some f →
      useIsActive toPath (some p) mode pat cau fn
        = f p (effectiveTarget toPath cau)) ∧
    (∀ p, p ≠ "" → fn = none →
      useIsActive toPath (some p) mode pat cau fn
        = isActive p (effectiveTarget toPath cau) mode pat) := by
  refine ⟨rfl, rfl, ?_, ?_⟩
  · intro p f hp hfn
    subst hfn
    simp [useIsActive, hp, effectiveTarget, isActiveWithCustomFn]
  · intro p hp hfn
    subst hfn
    simp [useIsActive, hp, effectiveTarget]

theorem useIsActive_composite_spec_witness :
    (useIsActive "/home" none "includes" none none none = false) ∧
    (useIsActive "/home" (some "/home/x") "includes" none none
        (some (fun p u => p == u))
      = (fun (p u : String) => p == u) "/home/x"
          (effectiveTarget "/home" none)) ∧
    (useIsActive "/home" (some "/home/x") "includes" none none none
      = isActive "/home/x" (effectiveTarget "/home" none) "includes" none) :=
  ⟨(useIsActive_composite_spec "/home" "includes" none none none).1
  , (useIsActive_composite_spec "/home" "includes" none none
      (some (fun p u => p == u))).2.2.1 "/home/x" (fun p u => p == u)
      (by decide) rfl
  , (useIsActive_composite_spec "/home" "includes" none none none).2.2.2
      "/home/x" (by decide) rfl⟩

end NavPlus
